import Mathlib

/-!
Shallow embedding of the pyopenvr example programs
(`hello_glfw.py`, `tracked_devices_actor.py`,
`HmdMatrix34_t_to_quaternion.py`) and proofs about them.

External library calls (GLFW, OpenGL, the OpenVR runtime) are modelled as
events emitted into a trace, with their results supplied as explicit
inputs; object attributes become record fields threaded through each
method.  Python exceptions become `Except` results, and the events
emitted before a `raise` are kept in the trace.
-/

set_option autoImplicit false

/-- Which eye a texture is submitted for (`openvr.Eye_Left` / `Eye_Right`). -/
inductive Eye where
  | left
  | right
deriving DecidableEq, Repr

/-- One external library call made by the example programs. -/
inductive Event where
  | glfwInit
  | createWindow
  | setKeyCallback
  | makeContextCurrent
  | terminate
  | actorInitGl
  | openvrInit
  | genFramebuffers
  | genRenderbuffers
  | genTextures
  | framebufferTexture2D
  | rendererInitGl
  | waitGetPoses
  | displayGl (boundFb : Nat)
  | bindFramebuffer (fb : Nat)
  | submit (eye : Eye)
  | swapBuffers
  | pollEvents
  | deleteProgram
  | deleteBuffers (vbo : Nat)
  | deleteTextures (tex : Nat)
  | deleteRenderbuffers (rb : Nat)
  | deleteFramebuffers (fb : Nat)
  | actorDisposeGl
  | openvrShutdown
  | drawMesh (meshId : Nat)
deriving DecidableEq, Repr

/-- The Python exceptions the embedded code can raise. -/
inductive PyExc where
  /-- `Exception("GLFW Initialization error")` -/
  | glfwInitError
  /-- `Exception("GLFW window creation error")` -/
  | glfwWindowError
  /-- `Exception("Unable to create compositor")` -/
  | compositorError
  /-- `Exception("Incomplete framebuffer")` -/
  | framebufferError
  /-- CPython's `RuntimeError` for a dict changing size during iteration -/
  | runtimeError
  /-- `math.sqrt` domain error (`ValueError`) -/
  | valueError
  /-- attribute access on `None` -/
  | attributeError
deriving DecidableEq, Repr

/-- `GL_FRAMEBUFFER_COMPLETE` (0x8CD5). -/
def GL_FRAMEBUFFER_COMPLETE : Nat := 36053

/-- The OpenGL-resource attributes of an `OpenVrGlRenderer` object. -/
structure RendererState where
  fb : Nat
  texture_id : Nat
  depth_buffer : Nat
deriving DecidableEq, Repr

/-- Results of the external calls made by `OpenVrGlRenderer.init_gl`:
the recommended render-target size, whether `openvr.VRCompositor()`
returned an object, the handles handed back by `glGen*`, and the status
reported by `glCheckFramebufferStatus`. -/
structure RendererInitExt where
  vrWidth : Nat
  vrHeight : Nat
  compositor : Option Unit
  fbHandle : Nat
  depthHandle : Nat
  texHandle : Nat
  fbStatus : Nat
deriving DecidableEq, Repr

/-- `OpenVrGlRenderer.init_gl` (hello_glfw.py lines 111-146): initialize
the actor and the VR system, raise if the compositor is unavailable, set
up the framebuffer with its depth renderbuffer and color texture, check
framebuffer completeness (unbinding and raising on failure), and unbind
the framebuffer on success. -/
def OpenVrGlRenderer.init_gl (_s : RendererState) (ext : RendererInitExt) :
    Except PyExc RendererState × List Event :=
  match ext.compositor with
  | none => (Except.error PyExc.compositorError, [Event.actorInitGl, Event.openvrInit])
  | some _ =>
    if ext.fbStatus ≠ GL_FRAMEBUFFER_COMPLETE then
      (Except.error PyExc.framebufferError,
       [Event.actorInitGl, Event.openvrInit,
        Event.genFramebuffers, Event.bindFramebuffer ext.fbHandle,
        Event.genRenderbuffers, Event.genTextures, Event.framebufferTexture2D,
        Event.bindFramebuffer 0])
    else
      (Except.ok
        { fb := ext.fbHandle, texture_id := ext.texHandle, depth_buffer := ext.depthHandle },
       [Event.actorInitGl, Event.openvrInit,
        Event.genFramebuffers, Event.bindFramebuffer ext.fbHandle,
        Event.genRenderbuffers, Event.genTextures, Event.framebufferTexture2D,
        Event.bindFramebuffer 0])

/-- `OpenVrGlRenderer.render_scene` (hello_glfw.py lines 148-168):
wait for poses; if the HMD pose is invalid return at once; otherwise
render once with the currently bound (default) framebuffer, once with
`self.fb` bound, then submit the texture for the left and right eyes.
`glBound` is the framebuffer currently bound in the GL context; the
HMD pose validity read from the filled pose array is the input
`hmdValid`.  Returns the renderer state, the bound framebuffer after the
call, and the trace. -/
def OpenVrGlRenderer.render_scene (s : RendererState) (glBound : Nat) (hmdValid : Bool) :
    RendererState × Nat × List Event :=
  if hmdValid = false then
    (s, glBound, [Event.waitGetPoses])
  else
    (s, 0,
      [Event.waitGetPoses,
       Event.displayGl glBound,
       Event.bindFramebuffer s.fb,
       Event.displayGl s.fb,
       Event.bindFramebuffer 0,
       Event.submit Eye.left,
       Event.submit Eye.right,
       Event.bindFramebuffer 0])

/-- `OpenVrGlRenderer.dispose_gl` (hello_glfw.py lines 173-181): dispose
the actor, shut down OpenVR, delete the texture, depth renderbuffer and
framebuffer, and reset `self.fb` to 0. -/
def OpenVrGlRenderer.dispose_gl (s : RendererState) : RendererState × List Event :=
  ({ s with fb := 0 },
   [Event.actorDisposeGl, Event.openvrShutdown,
    Event.deleteTextures s.texture_id,
    Event.deleteRenderbuffers s.depth_buffer,
    Event.deleteFramebuffers s.fb])

/-- The attributes of a `GlfwApp` object that its methods touch. -/
structure AppState where
  _is_initialized : Bool
  window : Option Nat
  renderer : Option RendererState
deriving DecidableEq, Repr

/-- Results of the external calls made by `GlfwApp.init_gl`: whether
`glfw.init()` succeeded, the window handle returned by
`glfw.create_window` (or `None`), and the inputs of the renderer's own
`init_gl`. -/
structure InitExt where
  glfwInitOk : Bool
  newWindow : Option Nat
  rExt : RendererInitExt
deriving DecidableEq, Repr

/-- `GlfwApp.init_gl` (hello_glfw.py lines 38-55): return at once when
already initialized; raise when `glfw.init()` fails; create the window,
calling `glfw.terminate()` and raising when creation returns `None`;
otherwise install the key callback, make the context current, run the
renderer's `init_gl` when a renderer is present, and set the
initialized flag. -/
def GlfwApp.init_gl (a : AppState) (ext : InitExt) :
    Except PyExc AppState × List Event :=
  if a._is_initialized then
    (Except.ok a, [])
  else if ext.glfwInitOk = false then
    (Except.error PyExc.glfwInitError, [Event.glfwInit])
  else
    match ext.newWindow with
    | none =>
      (Except.error PyExc.glfwWindowError,
       [Event.glfwInit, Event.createWindow, Event.terminate])
    | some w =>
      match a.renderer with
      | none =>
        (Except.ok { _is_initialized := true, window := some w, renderer := none },
         [Event.glfwInit, Event.createWindow,
          Event.setKeyCallback, Event.makeContextCurrent])
      | some rs =>
        match OpenVrGlRenderer.init_gl rs ext.rExt with
        | (Except.error e, revs) =>
          (Except.error e,
           [Event.glfwInit, Event.createWindow,
            Event.setKeyCallback, Event.makeContextCurrent] ++
             Event.rendererInitGl :: revs)
        | (Except.ok rs1, revs) =>
          (Except.ok { _is_initialized := true, window := some w, renderer := some rs1 },
           [Event.glfwInit, Event.createWindow,
            Event.setKeyCallback, Event.makeContextCurrent] ++
             Event.rendererInitGl :: revs)

/-- `GlfwApp.render_scene` (hello_glfw.py lines 57-64): call `init_gl`
(a no-op after the first frame), make the context current, run the
renderer's `render_scene`, swap the window buffers, and poll events. -/
def GlfwApp.render_scene (a : AppState) (ext : InitExt) (glBound : Nat) (hmdValid : Bool) :
    Except PyExc (AppState × Nat) × List Event :=
  match GlfwApp.init_gl a ext with
  | (Except.error e, evs) => (Except.error e, evs)
  | (Except.ok a1, evs) =>
    match a1.renderer with
    | none => (Except.error PyExc.attributeError, evs ++ [Event.makeContextCurrent])
    | some rs =>
      let res := OpenVrGlRenderer.render_scene rs glBound hmdValid
      (Except.ok ({ a1 with renderer := some res.1 }, res.2.1),
       evs ++ Event.makeContextCurrent ::
         (res.2.2 ++ [Event.swapBuffers, Event.pollEvents]))

/-- `true` exactly on the events the spec's per-frame pipeline names:
pose fetch, scene render, compositor submission, buffer swap. -/
def isPipelineStep : Event → Bool
  | Event.waitGetPoses => true
  | Event.displayGl _ => true
  | Event.submit _ => true
  | Event.swapBuffers => true
  | _ => false

/-- `true` when the first component records a raised exception. -/
def raisesExc {α : Type} (r : Except PyExc α × List Event) : Bool :=
  match r.1 with
  | Except.error _ => true
  | Except.ok _ => false

/-- `VRRenderModelError_Loading` (value 100 in the openvr bindings). -/
def VRRenderModelError_Loading : Nat := 100

/-- One result of `openvr.VRRenderModels().loadRenderModel_Async`:
an `EVRRenderModelError` code and the model (or `None`). -/
structure LoadResult where
  error : Nat
  model : Option Nat
deriving DecidableEq, Repr

/-- The retry loop of `TrackedDeviceMesh.__init__`
(tracked_devices_actor.py lines 30-34), with the runtime's successive
answers given as `f` (the k-th call returns `f k`) and an explicit fuel
bound.  It calls `loadRenderModel_Async`, breaks as soon as the error is
not `VRRenderModelError_Loading`, and otherwise sleeps one second and
retries.  Returns the result of the final call together with the index
of that call (which is also the number of one-second sleeps performed),
or `none` when the fuel runs out first. -/
def loadRenderModelLoop (f : Nat → LoadResult) : Nat → Nat → Option (LoadResult × Nat)
  | 0, _ => none
  | fuel + 1, k =>
    let r := f k
    if r.error = VRRenderModelError_Loading then
      loadRenderModelLoop f fuel (k + 1)
    else
      some (r, k)

/-- What `_check_devices` and `display_gl` observe about tracked device
`i` on one call: the pose validity bit of `self.poses[i]` and the
render-model name reported by `getStringTrackedDeviceProperty`. -/
structure DeviceInfo where
  bPoseIsValid : Bool
  modelName : String
deriving DecidableEq, Repr

/-- The attributes of a `TrackedDevicesActor`: the shader handle and the
`meshes` dictionary, modelled as an association list from render-model
name to the mesh object's identity; `nextMeshId` supplies the identity
of the next `TrackedDeviceMesh` constructed. -/
structure ActorState where
  shader : Nat
  meshes : List (String × Nat)
  nextMeshId : Nat
deriving DecidableEq, Repr

/-- The body of the device loop of `_check_devices`
(tracked_devices_actor.py lines 100-105) for one device: skip invalid
poses, and construct and cache a `TrackedDeviceMesh` when the model
name is not yet in `self.meshes`. -/
def checkStep (s : ActorState) (d : DeviceInfo) : ActorState :=
  if d.bPoseIsValid = false then s
  else if (s.meshes.lookup d.modelName).isSome then s
  else
    { s with
      meshes := s.meshes ++ [(d.modelName, s.nextMeshId)],
      nextMeshId := s.nextMeshId + 1 }

/-- `TrackedDevicesActor._check_devices` (tracked_devices_actor.py lines
97-105): loop over devices `1 .. len(poses)-1` (the list `devices` holds
the whole pose array, index 0 included, so the head is dropped). -/
def TrackedDevicesActor._check_devices (s : ActorState) (devices : List DeviceInfo) :
    ActorState :=
  (devices.drop 1).foldl checkStep s

/-- `TrackedDevicesActor.display_gl` (tracked_devices_actor.py lines
148-160): run `_check_devices`, then draw every cached mesh whose
device pose is valid, skipping model names absent from `self.meshes`. -/
def TrackedDevicesActor.display_gl (s : ActorState) (devices : List DeviceInfo) :
    ActorState × List Event :=
  let s1 := TrackedDevicesActor._check_devices s devices
  (s1,
   (devices.drop 1).filterMap fun d =>
     if d.bPoseIsValid = false then none
     else
       match s1.meshes.lookup d.modelName with
       | none => none
       | some meshId => some (Event.drawMesh meshId))

/-- One CPython 2 `iteritems` step of the loop in
`TrackedDevicesActor.dispose_gl` (tracked_devices_actor.py lines
165-167).  `origSize` is the dictionary size captured when the iterator
was created; each call of `next()` first compares the current size with
it and raises `RuntimeError` on a mismatch.  The body disposes the
yielded mesh (deleting its vertex buffer) and then deletes its key from
the dictionary. -/
def iterDisposeMeshes (origSize : Nat) :
    List (String × Nat) → List (String × Nat) →
      Except PyExc Unit × List (String × Nat) × List Event
  | current, [] =>
    if current.length ≠ origSize then
      (Except.error PyExc.runtimeError, current, [])
    else
      (Except.ok (), current, [])
  | current, (k, m) :: rest =>
    if current.length ≠ origSize then
      (Except.error PyExc.runtimeError, current, [])
    else
      let current1 := current.eraseP fun p => p.1 == k
      let res := iterDisposeMeshes origSize current1 rest
      (res.1, res.2.1, Event.deleteBuffers m :: res.2.2)

/-- `TrackedDevicesActor.dispose_gl` (tracked_devices_actor.py lines
162-167): delete the shader program, then iterate over
`self.meshes.iteritems()`, disposing each mesh and deleting its entry
from the dictionary while the iteration is in progress. -/
def TrackedDevicesActor.dispose_gl (s : ActorState) :
    Except PyExc Unit × ActorState × List Event :=
  let res := iterDisposeMeshes s.meshes.length s.meshes s.meshes
  (res.1, { s with shader := 0, meshes := res.2.1 },
   Event.deleteProgram :: res.2.2)

/-- `math.sqrt`: raises `ValueError` on a negative argument, otherwise
returns the square root. -/
noncomputable def pySqrt (x : ℝ) : Except PyExc ℝ :=
  if x < 0 then Except.error PyExc.valueError else Except.ok (Real.sqrt x)

/-- `math.copysign x y`: the magnitude of `x` with the sign of `y`
(real-valued model, so the sign of `0` is taken as positive). -/
noncomputable def pyCopysign (x y : ℝ) : ℝ :=
  if y < 0 then -|x| else |x|

/-- The position part of the pose returned by `matrixToXYZ`. -/
structure PosePos where
  x : ℝ
  y : ℝ
  z : ℝ

/-- The quaternion part of the pose returned by `matrixToXYZ`. -/
structure PoseQuat where
  w : ℝ
  x : ℝ
  y : ℝ
  z : ℝ

/-- The dictionary returned by `matrixToXYZ`. -/
structure Pose where
  pos : PosePos
  quat : PoseQuat

/-- The quaternion w magnitude computed at line 183 of the sample. -/
noncomputable def qwMag (m : Fin 3 → Fin 4 → ℝ) : ℝ :=
  Real.sqrt (max 0 (1 + m 0 0 + m 1 1 + m 2 2)) / 2

/-- The quaternion x magnitude computed at line 184, before copysign. -/
noncomputable def qxMag (m : Fin 3 → Fin 4 → ℝ) : ℝ :=
  Real.sqrt (max 0 (1 + m 0 0 - m 1 1 - m 2 2)) / 2

/-- The quaternion y magnitude computed at line 185, before copysign. -/
noncomputable def qyMag (m : Fin 3 → Fin 4 → ℝ) : ℝ :=
  Real.sqrt (max 0 (1 - m 0 0 + m 1 1 - m 2 2)) / 2

/-- The quaternion z magnitude computed at line 186, before copysign. -/
noncomputable def qzMag (m : Fin 3 → Fin 4 → ℝ) : ℝ :=
  Real.sqrt (max 0 (1 - m 0 0 - m 1 1 + m 2 2)) / 2

/-- `matrixToXYZ` (HmdMatrix34_t_to_quaternion.py lines 173-197): read
the position from the last column of the 3x4 matrix, compute the four
quaternion magnitudes with `sqrt(max(0, ...)) / 2.0`, and copy signs
onto x, y, z from the corresponding matrix-entry differences. -/
noncomputable def matrixToXYZ (m : Fin 3 → Fin 4 → ℝ) : Except PyExc Pose := do
  let px := m 0 3
  let py := m 1 3
  let pz := m 2 3
  let qw0 ← pySqrt (max 0 (1 + m 0 0 + m 1 1 + m 2 2))
  let qw := qw0 / 2
  let qx0 ← pySqrt (max 0 (1 + m 0 0 - m 1 1 - m 2 2))
  let qx1 := qx0 / 2
  let qy0 ← pySqrt (max 0 (1 - m 0 0 + m 1 1 - m 2 2))
  let qy1 := qy0 / 2
  let qz0 ← pySqrt (max 0 (1 - m 0 0 - m 1 1 + m 2 2))
  let qz1 := qz0 / 2
  let qx := pyCopysign qx1 (m 2 1 - m 1 2)
  let qy := pyCopysign qy1 (m 0 2 - m 2 0)
  let qz := pyCopysign qz1 (m 1 0 - m 0 1)
  return { pos := { x := px, y := py, z := pz },
           quat := { w := qw, x := qx, y := qy, z := qz } }

/-- A successfully returning `GlfwApp.init_gl` always leaves the
initialized flag set: either it was set already (early return) or the
full path sets it. -/
theorem GlfwApp.init_gl_ok_flag (a : AppState) (ext : InitExt) (a1 : AppState)
    (evs : List Event) (h : GlfwApp.init_gl a ext = (Except.ok a1, evs)) :
    a1._is_initialized = true := by
  unfold GlfwApp.init_gl at h
  split at h
  next hi =>
    injection h with h1 h2
    injection h1 with h1
    rw [← h1]
    exact hi
  next hi =>
    split at h
    next => simp at h
    next =>
      split at h
      next => simp at h
      next w =>
        split at h
        next =>
          injection h with h1 h2
          injection h1 with h1
          rw [← h1]
        next rs =>
          split at h
          next => simp at h
          next rs1 revs =>
            injection h with h1 h2
            injection h1 with h1
            rw [← h1]

/-- When the initialized flag is set, `GlfwApp.init_gl` returns at once,
unchanged, performing no external call. -/
theorem GlfwApp.init_gl_of_initialized (a : AppState) (ext : InitExt)
    (h : a._is_initialized = true) :
    GlfwApp.init_gl a ext = (Except.ok a, []) := by
  unfold GlfwApp.init_gl
  rw [if_pos h]

/-- Replacing the `renderer` field by its current value is the identity. -/
theorem AppState.update_renderer_self (a : AppState) (rs : RendererState)
    (h : a.renderer = some rs) : { a with renderer := some rs } = a := by
  cases a
  simp only at h
  simp [h]

/-- A successfully returning `GlfwApp.init_gl` leaves a non-`None`
window, provided the flag implies a window in the starting state. -/
theorem GlfwApp.init_gl_ok_window (a : AppState) (ext : InitExt) (a1 : AppState)
    (evs : List Event) (hinv : a._is_initialized = true → a.window ≠ none)
    (h : GlfwApp.init_gl a ext = (Except.ok a1, evs)) :
    a1.window ≠ none := by
  unfold GlfwApp.init_gl at h
  split at h
  next hi =>
    injection h with h1 h2
    injection h1 with h1
    rw [← h1]
    exact hinv hi
  next hi =>
    split at h
    next => simp at h
    next =>
      split at h
      next => simp at h
      next w =>
        split at h
        next =>
          injection h with h1 h2
          injection h1 with h1
          rw [← h1]
          simp
        next rs =>
          split at h
          next => simp at h
          next rs1 revs =>
            injection h with h1 h2
            injection h1 with h1
            rw [← h1]
            simp

/-- C7: `GlfwApp.init_gl` is idempotent.  After any call that returns
successfully (so the `_is_initialized` flag is set), a further call with
arbitrary external behaviour returns immediately: the state is returned
unchanged and the empty trace shows that GLFW is not re-initialized, no
window is created, and the renderer's `init_gl` is not called again; in
particular calling `init_gl` twice leaves the same state as calling it
once. -/
theorem glfw_init_gl_idempotent (a : AppState) (ext : InitExt) (a1 : AppState)
    (evs : List Event) (ext2 : InitExt)
    (h : GlfwApp.init_gl a ext = (Except.ok a1, evs)) :
    GlfwApp.init_gl a1 ext2 = (Except.ok a1, []) :=
  GlfwApp.init_gl_of_initialized a1 ext2 (GlfwApp.init_gl_ok_flag a ext a1 evs h)

/-- Concrete app and external inputs used to instantiate the theorems. -/
def rExtC : RendererInitExt :=
  { vrWidth := 1512, vrHeight := 1680, compositor := some (),
    fbHandle := 1, depthHandle := 2, texHandle := 3,
    fbStatus := GL_FRAMEBUFFER_COMPLETE }

/-- Concrete `GlfwApp.init_gl` inputs where every external call succeeds. -/
def extC : InitExt := { glfwInitOk := true, newWindow := some 7, rExt := rExtC }

/-- Witness for `glfw_init_gl_idempotent` at a concrete fresh app. -/
theorem glfw_init_gl_idempotent_witness :
    GlfwApp.init_gl
      { _is_initialized := true, window := some 7, renderer := none } extC =
      (Except.ok { _is_initialized := true, window := some 7, renderer := none }, []) :=
  glfw_init_gl_idempotent
    { _is_initialized := false, window := none, renderer := none } extC
    { _is_initialized := true, window := some 7, renderer := none }
    [Event.glfwInit, Event.createWindow, Event.setKeyCallback, Event.makeContextCurrent]
    extC rfl

/-- C6: `GlfwApp.init_gl` raises exactly on context-creation failure:
when not yet initialized it raises when `glfw.init()` returns false; it
raises when window creation returns `None`, and in that case the trace
ends with the `glfw.terminate()` call made before raising; and every
successful return leaves a non-`None` window (under the class invariant
that the initialized flag implies a window). -/
theorem glfw_init_gl_error_paths (a : AppState) (ext : InitExt)
    (hinv : a._is_initialized = true → a.window ≠ none) :
    (a._is_initialized = false → ext.glfwInitOk = false →
      GlfwApp.init_gl a ext = (Except.error PyExc.glfwInitError, [Event.glfwInit])) ∧
    (a._is_initialized = false → ext.glfwInitOk = true → ext.newWindow = none →
      GlfwApp.init_gl a ext =
        (Except.error PyExc.glfwWindowError,
         [Event.glfwInit, Event.createWindow, Event.terminate])) ∧
    (∀ a1 evs, GlfwApp.init_gl a ext = (Except.ok a1, evs) → a1.window ≠ none) := by
  refine ⟨?_, ?_, ?_⟩
  · intro h1 h2
    simp [GlfwApp.init_gl, h1, h2]
  · intro h1 h2 h3
    simp [GlfwApp.init_gl, h1, h2, h3]
  · intro a1 evs h
    exact GlfwApp.init_gl_ok_window a ext a1 evs hinv h

/-- Witness for `glfw_init_gl_error_paths`: a fresh app whose window
creation fails terminates GLFW and raises. -/
theorem glfw_init_gl_error_paths_witness :
    GlfwApp.init_gl { _is_initialized := false, window := none, renderer := none }
      { glfwInitOk := true, newWindow := none, rExt := rExtC } =
      (Except.error PyExc.glfwWindowError,
       [Event.glfwInit, Event.createWindow, Event.terminate]) :=
  (glfw_init_gl_error_paths
    { _is_initialized := false, window := none, renderer := none }
    { glfwInitOk := true, newWindow := none, rExt := rExtC }
    (by simp)).2.1 rfl rfl rfl

/-- C8: when the HMD pose fetched by `waitGetPoses` is invalid,
`OpenVrGlRenderer.render_scene` returns right after the pose fetch: the
trace holds only the `waitGetPoses` call (no `display_gl` rendering, no
compositor submission for either eye, no framebuffer bind), the
renderer's state is returned unchanged, and the bound framebuffer is
untouched. -/
theorem render_scene_invalid_pose_early_return (s : RendererState) (glBound : Nat) :
    OpenVrGlRenderer.render_scene s glBound false = (s, glBound, [Event.waitGetPoses]) := by
  simp [OpenVrGlRenderer.render_scene]

/-- C1: for a frame in which the HMD pose is valid (and the app is
already initialized so `init_gl` is a no-op), one call of
`GlfwApp.render_scene` produces exactly this trace: fetch poses
(`waitGetPoses`), render the scene once with the default framebuffer 0
bound and once with the VR framebuffer `self.fb` bound, submit the
rendered texture for the left eye and then the right eye, and swap the
window buffers — each pipeline step exactly once and in that order, as
the filtered trace shows; the two renders target distinct framebuffers
since `self.fb` is not the default framebuffer 0. -/
theorem frame_pipeline_order (a : AppState) (rs : RendererState) (ext : InitExt)
    (h1 : a._is_initialized = true) (h2 : a.renderer = some rs) (h3 : rs.fb ≠ 0) :
    GlfwApp.render_scene a ext 0 true =
      (Except.ok (a, 0),
       [Event.makeContextCurrent,
        Event.waitGetPoses,
        Event.displayGl 0,
        Event.bindFramebuffer rs.fb,
        Event.displayGl rs.fb,
        Event.bindFramebuffer 0,
        Event.submit Eye.left,
        Event.submit Eye.right,
        Event.bindFramebuffer 0,
        Event.swapBuffers,
        Event.pollEvents]) ∧
    ([Event.makeContextCurrent,
      Event.waitGetPoses,
      Event.displayGl 0,
      Event.bindFramebuffer rs.fb,
      Event.displayGl rs.fb,
      Event.bindFramebuffer 0,
      Event.submit Eye.left,
      Event.submit Eye.right,
      Event.bindFramebuffer 0,
      Event.swapBuffers,
      Event.pollEvents].filter isPipelineStep =
      [Event.waitGetPoses, Event.displayGl 0, Event.displayGl rs.fb,
       Event.submit Eye.left, Event.submit Eye.right, Event.swapBuffers]) ∧
    Event.displayGl rs.fb ≠ Event.displayGl 0 := by
  refine ⟨?_, ?_, ?_⟩
  · have hinit := GlfwApp.init_gl_of_initialized a ext h1
    simp [GlfwApp.render_scene, hinit, h2, OpenVrGlRenderer.render_scene,
          AppState.update_renderer_self a rs h2]
  · rfl
  · simp [h3]

/-- A concrete renderer state used to instantiate the theorems. -/
def rsC1 : RendererState := { fb := 5, texture_id := 3, depth_buffer := 4 }

/-- A concrete initialized app holding `rsC1`. -/
def appC1 : AppState :=
  { _is_initialized := true, window := some 7, renderer := some rsC1 }

/-- Witness for `frame_pipeline_order` at a concrete initialized app. -/
theorem frame_pipeline_order_witness :
    GlfwApp.render_scene appC1 extC 0 true =
      (Except.ok (appC1, 0),
       [Event.makeContextCurrent,
        Event.waitGetPoses,
        Event.displayGl 0,
        Event.bindFramebuffer rsC1.fb,
        Event.displayGl rsC1.fb,
        Event.bindFramebuffer 0,
        Event.submit Eye.left,
        Event.submit Eye.right,
        Event.bindFramebuffer 0,
        Event.swapBuffers,
        Event.pollEvents]) ∧
    ([Event.makeContextCurrent,
      Event.waitGetPoses,
      Event.displayGl 0,
      Event.bindFramebuffer rsC1.fb,
      Event.displayGl rsC1.fb,
      Event.bindFramebuffer 0,
      Event.submit Eye.left,
      Event.submit Eye.right,
      Event.bindFramebuffer 0,
      Event.swapBuffers,
      Event.pollEvents].filter isPipelineStep =
      [Event.waitGetPoses, Event.displayGl 0, Event.displayGl rsC1.fb,
       Event.submit Eye.left, Event.submit Eye.right, Event.swapBuffers]) ∧
    Event.displayGl rsC1.fb ≠ Event.displayGl 0 :=
  frame_pipeline_order appC1 rsC1 extC rfl rfl (by decide)

/-- An entry found by `List.lookup` is still found after appending. -/
theorem lookup_append_some (l l2 : List (String × Nat)) (name : String) (v : Nat)
    (h : l.lookup name = some v) : (l ++ l2).lookup name = some v := by
  induction l with
  | nil => simp [List.lookup] at h
  | cons p rest ih =>
    obtain ⟨k, val⟩ := p
    cases hk : (name == k) with
    | true =>
      simp only [List.lookup, hk] at h
      simp only [List.cons_append, List.lookup, hk]
      exact h
    | false =>
      simp only [List.lookup, hk] at h
      simp only [List.cons_append, List.lookup, hk]
      exact ih h

/-- One `checkStep` never removes or replaces a cached mesh. -/
theorem checkStep_preserves (s : ActorState) (d : DeviceInfo) (name : String) (v : Nat)
    (h : s.meshes.lookup name = some v) :
    ((checkStep s d).meshes).lookup name = some v := by
  unfold checkStep
  split
  · exact h
  · split
    · exact h
    · exact lookup_append_some s.meshes [(d.modelName, s.nextMeshId)] name v h

/-- `_check_devices` never removes or replaces a cached mesh. -/
theorem check_devices_preserves (devices : List DeviceInfo) (s : ActorState)
    (name : String) (v : Nat) (h : s.meshes.lookup name = some v) :
    (TrackedDevicesActor._check_devices s devices).meshes.lookup name = some v := by
  unfold TrackedDevicesActor._check_devices
  induction devices.drop 1 generalizing s with
  | nil => exact h
  | cons d rest ih => exact ih (checkStep s d) (checkStep_preserves s d name v h)

/-- One method call on a `TrackedDevicesActor` after construction:
`_check_devices` or `display_gl`, with the device poses and reported
model names it observes. -/
inductive ActorOp where
  | check (devices : List DeviceInfo)
  | display (devices : List DeviceInfo)
deriving DecidableEq, Repr

/-- Run a sequence of `_check_devices` / `display_gl` calls. -/
def runActorOps (s : ActorState) : List ActorOp → ActorState
  | [] => s
  | ActorOp.check ds :: rest => runActorOps (TrackedDevicesActor._check_devices s ds) rest
  | ActorOp.display ds :: rest =>
    runActorOps (TrackedDevicesActor.display_gl s ds).1 rest

/-- C2: the `meshes` render-model cache is add-only.  Along any sequence
of `_check_devices` and `display_gl` calls, with arbitrary device poses
and model names observed at each call, an entry once present for a model
name is never removed and keeps mapping to the same `TrackedDeviceMesh`
object (identified by its identity `v`). -/
theorem meshes_cache_add_only (s : ActorState) (ops : List ActorOp)
    (name : String) (v : Nat) (h : s.meshes.lookup name = some v) :
    (runActorOps s ops).meshes.lookup name = some v := by
  induction ops generalizing s with
  | nil => exact h
  | cons op rest ih =>
    cases op with
    | check ds =>
      exact ih (TrackedDevicesActor._check_devices s ds)
        (check_devices_preserves ds s name v h)
    | display ds =>
      exact ih (TrackedDevicesActor.display_gl s ds).1
        (check_devices_preserves ds s name v h)

/-- Witness for `meshes_cache_add_only`: a cached mesh survives a
`display_gl` call that loads a second model and a later `_check_devices`
call. -/
theorem meshes_cache_add_only_witness :
    (runActorOps { shader := 2, meshes := [("renderLeftHand", 4)], nextMeshId := 5 }
      [ActorOp.display
        [{ bPoseIsValid := false, modelName := "hmd" },
         { bPoseIsValid := true, modelName := "lighthouse" }],
       ActorOp.check
        [{ bPoseIsValid := false, modelName := "hmd" },
         { bPoseIsValid := true, modelName := "renderLeftHand" }]]).meshes.lookup
      "renderLeftHand" = some 4 :=
  meshes_cache_add_only
    { shader := 2, meshes := [("renderLeftHand", 4)], nextMeshId := 5 }
    [ActorOp.display
      [{ bPoseIsValid := false, modelName := "hmd" },
       { bPoseIsValid := true, modelName := "lighthouse" }],
     ActorOp.check
      [{ bPoseIsValid := false, modelName := "hmd" },
       { bPoseIsValid := true, modelName := "renderLeftHand" }]]
    "renderLeftHand" 4 rfl

/-- The retry loop started at attempt `j` stops at the first
non-`Loading` attempt at or after `j`, given enough fuel. -/
theorem loadRenderModelLoop_from (f : Nat → LoadResult) (n : Nat) :
    ∀ fuel j, j ≤ n → n - j < fuel →
      (f n).error ≠ VRRenderModelError_Loading →
      (∀ m, j ≤ m → m < n → (f m).error = VRRenderModelError_Loading) →
      loadRenderModelLoop f fuel j = some (f n, n) := by
  intro fuel
  induction fuel with
  | zero =>
    intro j _ hf _ _
    exact absurd hf (by omega)
  | succ fuel ih =>
    intro j hj hf hn hload
    unfold loadRenderModelLoop
    by_cases hjn : j = n
    · subst hjn
      rw [if_neg hn]
    · have hjlt : j < n := lt_of_le_of_ne hj hjn
      rw [if_pos (hload j le_rfl hjlt)]
      exact ih (j + 1) (by omega) (by omega) hn
        (fun m hm hmn => hload m (by omega) hmn)

/-- C3: the `TrackedDeviceMesh` constructor's sleep-and-retry loop calls
`loadRenderModel_Async` repeatedly, sleeping after each attempt that
reports `VRRenderModelError_Loading`; if attempt `n` is the first whose
error is not `VRRenderModelError_Loading` then the loop terminates
(any fuel beyond `n` suffices) at exactly that attempt, returning its
result `f n` — the model used comes from exactly that final call — after
`n` one-second sleeps. -/
theorem load_render_model_retry (f : Nat → LoadResult) (n fuel : Nat)
    (h1 : (f n).error ≠ VRRenderModelError_Loading)
    (h2 : ∀ m, m < n → (f m).error = VRRenderModelError_Loading)
    (h3 : n < fuel) :
    loadRenderModelLoop f fuel 0 = some (f n, n) :=
  loadRenderModelLoop_from f n fuel 0 (Nat.zero_le n) (by omega) h1
    (fun m _ hmn => h2 m hmn)

/-- A runtime that answers `Loading` twice and then delivers model 11. -/
def loadAfterTwo : Nat → LoadResult := fun k =>
  if k < 2 then { error := VRRenderModelError_Loading, model := none }
  else { error := 0, model := some 11 }

/-- Witness for `load_render_model_retry`: with two `Loading` answers the
loop ends at the third call and returns its model. -/
theorem load_render_model_retry_witness :
    loadRenderModelLoop loadAfterTwo 3 0 = some (loadAfterTwo 2, 2) :=
  load_render_model_retry loadAfterTwo 2 3 (by decide)
    (by decide) (by decide)

/-- An actor that has cached two render models. -/
def actorTwoMeshes : ActorState :=
  { shader := 3, meshes := [("model_a", 7), ("model_b", 8)], nextMeshId := 9 }

/-- C4 (failing input): `TrackedDevicesActor.dispose_gl` deletes an
entry of `self.meshes` while iterating over `iteritems()`, so on an
actor with two cached meshes it disposes only the first mesh (the trace
ends after `glDeleteProgram` and one `glDeleteBuffers`), leaves the
second entry in the dictionary undisposed, and raises `RuntimeError`
("dictionary changed size during iteration") — instead of disposing
every mesh and removing every entry as intended. -/
theorem dispose_gl_dict_mutation_raises :
    (TrackedDevicesActor.dispose_gl actorTwoMeshes).1 = Except.error PyExc.runtimeError ∧
    (TrackedDevicesActor.dispose_gl actorTwoMeshes).2.1.meshes = [("model_b", 8)] ∧
    (TrackedDevicesActor.dispose_gl actorTwoMeshes).2.2 =
      [Event.deleteProgram, Event.deleteBuffers 7] := by
  refine ⟨?_, ?_, ?_⟩ <;> rfl

/-- The renderer state and external inputs of the C5 counterexample:
`openvr.VRCompositor()` returns `None` while the framebuffer status is
`GL_FRAMEBUFFER_COMPLETE`. -/
def extNoCompositor : RendererInitExt :=
  { vrWidth := 1512, vrHeight := 1680, compositor := none,
    fbHandle := 1, depthHandle := 2, texHandle := 3,
    fbStatus := GL_FRAMEBUFFER_COMPLETE }

/-- A fresh renderer state, as after `OpenVrGlRenderer.__init__`. -/
def rsFresh : RendererState := { fb := 0, texture_id := 0, depth_buffer := 0 }

/-- C5 (counterexample): `OpenVrGlRenderer.init_gl` does not raise *iff*
the framebuffer completeness check fails — when `openvr.VRCompositor()`
returns `None` it raises even though the framebuffer status is
`GL_FRAMEBUFFER_COMPLETE`, so the claimed equivalence is false. -/
theorem init_gl_raise_iff_counterexample :
    ¬ (raisesExc (OpenVrGlRenderer.init_gl rsFresh extNoCompositor) = true ↔
       extNoCompositor.fbStatus ≠ GL_FRAMEBUFFER_COMPLETE) := by
  decide

/-- C5 (amended): `OpenVrGlRenderer.init_gl` raises if and only if the
compositor is unavailable or the framebuffer completeness check (made
after attaching the color texture) returns a status other than
`GL_FRAMEBUFFER_COMPLETE`; and in the framebuffer-failure case the last
external call before raising binds framebuffer 0, i.e. it unbinds the
framebuffer before raising. -/
theorem init_gl_raise_iff_amended (s : RendererState) (ext : RendererInitExt) :
    (raisesExc (OpenVrGlRenderer.init_gl s ext) = true ↔
      (ext.compositor = none ∨ ext.fbStatus ≠ GL_FRAMEBUFFER_COMPLETE)) ∧
    (ext.compositor ≠ none → ext.fbStatus ≠ GL_FRAMEBUFFER_COMPLETE →
      raisesExc (OpenVrGlRenderer.init_gl s ext) = true ∧
      (OpenVrGlRenderer.init_gl s ext).2.getLast? = some (Event.bindFramebuffer 0)) := by
  constructor
  · match hc : ext.compositor with
    | none => simp [OpenVrGlRenderer.init_gl, hc, raisesExc]
    | some u =>
      by_cases hs : ext.fbStatus = GL_FRAMEBUFFER_COMPLETE
      · simp [OpenVrGlRenderer.init_gl, hc, hs, raisesExc]
      · simp [OpenVrGlRenderer.init_gl, hc, hs, raisesExc]
  · intro hc hs
    match hcc : ext.compositor with
    | none => exact absurd hcc hc
    | some u =>
      constructor
      · simp [OpenVrGlRenderer.init_gl, hcc, hs, raisesExc]
      · simp [OpenVrGlRenderer.init_gl, hcc, hs, List.getLast?]

/-- Renderer-init inputs whose framebuffer check fails. -/
def extBadFb : RendererInitExt :=
  { vrWidth := 1512, vrHeight := 1680, compositor := some (),
    fbHandle := 1, depthHandle := 2, texHandle := 3, fbStatus := 0 }

/-- Witness for `init_gl_raise_iff_amended`: with an incomplete
framebuffer the call raises and its last event unbinds the framebuffer. -/
theorem init_gl_raise_iff_amended_witness :
    raisesExc (OpenVrGlRenderer.init_gl rsFresh extBadFb) = true ∧
    (OpenVrGlRenderer.init_gl rsFresh extBadFb).2.getLast? =
      some (Event.bindFramebuffer 0) :=
  (init_gl_raise_iff_amended rsFresh extBadFb).2 (by decide) (by decide)

/-- C9: `matrixToXYZ` is total on real-valued 3x4 matrices: every
square-root argument is clamped non-negative by `max 0 _`, so `math.sqrt`
never receives a negative argument and no exception is raised; the
position fields of the result are the matrix entries `[0][3]`, `[1][3]`,
`[2][3]`; and each quaternion magnitude is non-negative before the sign
of the corresponding matrix-entry difference is copied onto it. -/
theorem matrixToXYZ_total (m : Fin 3 → Fin 4 → ℝ) :
    ∃ p : Pose,
      matrixToXYZ m = Except.ok p ∧
      p.pos.x = m 0 3 ∧ p.pos.y = m 1 3 ∧ p.pos.z = m 2 3 ∧
      0 ≤ qwMag m ∧ 0 ≤ qxMag m ∧ 0 ≤ qyMag m ∧ 0 ≤ qzMag m ∧
      p.quat.w = qwMag m ∧
      p.quat.x = pyCopysign (qxMag m) (m 2 1 - m 1 2) ∧
      p.quat.y = pyCopysign (qyMag m) (m 0 2 - m 2 0) ∧
      p.quat.z = pyCopysign (qzMag m) (m 1 0 - m 0 1) := by
  have h1 : ¬ (max (0:ℝ) (1 + m 0 0 + m 1 1 + m 2 2) < 0) :=
    not_lt.mpr (le_max_left _ _)
  have h2 : ¬ (max (0:ℝ) (1 + m 0 0 - m 1 1 - m 2 2) < 0) :=
    not_lt.mpr (le_max_left _ _)
  have h3 : ¬ (max (0:ℝ) (1 - m 0 0 + m 1 1 - m 2 2) < 0) :=
    not_lt.mpr (le_max_left _ _)
  have h4 : ¬ (max (0:ℝ) (1 - m 0 0 - m 1 1 + m 2 2) < 0) :=
    not_lt.mpr (le_max_left _ _)
  refine ⟨{ pos := { x := m 0 3, y := m 1 3, z := m 2 3 },
            quat := { w := qwMag m,
                      x := pyCopysign (qxMag m) (m 2 1 - m 1 2),
                      y := pyCopysign (qyMag m) (m 0 2 - m 2 0),
                      z := pyCopysign (qzMag m) (m 1 0 - m 0 1) } },
         ?_, rfl, rfl, rfl, ?_, ?_, ?_, ?_, rfl, rfl, rfl, rfl⟩
  · simp only [matrixToXYZ, pySqrt, if_neg h1, if_neg h2, if_neg h3, if_neg h4,
               qwMag, qxMag, qyMag, qzMag]
    rfl
  all_goals exact div_nonneg (Real.sqrt_nonneg _) (by norm_num)
